import Mathlib

/-!
Verification development for the Tavily-Web-Scraper demo script
(src/main2.py).  The script wraps a remote search/extract API behind three
agent methods (search_agent, extract_agent, crawl_agent) of a class
TavilyAgents, plus a text menu loop (main).

Shallow embedding conventions:
* A result dictionary returned by the remote API is modelled by
  `ResultRecord`, whose five relevant keys are `Option String` fields;
  `none` models a missing key (Python `dict.get(k, d)` becomes
  `Option.getD`; Python bracket access `d[k]` becomes a `KeyError` on
  `none`).  A key bound to Python `None` behaves like a missing key in
  every expression the script evaluates on these fields, so it is also
  modelled by `none`.
* Python exceptions are modelled with `Except String`; the message is the
  `str(e)` text.  A remote client call is a parameter of type
  `Except String Envelope`: `.ok` is a returned envelope, `.error e` is an
  exception raised by the call.
* Printed output is modelled as a `List String` of the script's printed
  lines in order (blank separator prints and the debug line that lists the
  raw dictionary keys are not modelled; decorative rules of `=` and `-`
  are).
* Console input is a `List String` of the lines read by `input()`;
  exhausting it models `EOFError`.
-/

/-- Python truthiness-based `or` on strings: `a or b` yields `b` exactly
when `a` is the empty string. -/
def pyStrOr (a b : String) : String := if a = "" then b else a

/-- Python `or` where the left operand is an optional string (the
`api_key` constructor argument, default `None`): `None` and `""` are
falsy. -/
def pyStrOrOpt (a b : Option String) : Option String :=
  match a with
  | some s => if s = "" then b else some s
  | none => b

/-- The `str` of a Python `KeyError` for key `k`: the key surrounded by
single quotes. -/
def keyError (k : String) : String := "\x27" ++ k ++ "\x27"

/-- One result dictionary from a search/extract response.  `none` models a
key that is absent (or bound to `None`). -/
structure ResultRecord where
  title : Option String
  url : Option String
  score : Option String
  raw_content : Option String
  content : Option String
deriving DecidableEq

/-- A response envelope as used by the script: only the `results` key is
consulted (`response.get('results', [])`); `none` models an envelope
without that key. -/
structure Envelope where
  results : Option (List ResultRecord)
deriving DecidableEq

/-- The request `search_agent` sends to the remote client
(src/main2.py lines 98-103). -/
structure SearchRequest where
  query : String
  max_results : Nat
  search_depth : String
  include_raw_content : Bool
deriving DecidableEq

/-- The request sent to the remote extract operation.  `none` for
`include_raw_content` models a call that does not pass the keyword at all
(src/main2.py line 180), `some b` a call that passes it explicitly
(src/main2.py lines 235-238). -/
structure ExtractRequest where
  urls : List String
  include_raw_content : Option Bool
deriving DecidableEq

/-- The `urls` argument of `extract_agent`: a single string or a list of
strings (src/main2.py lines 150-173). -/
inductive UrlsInput where
  | str (s : String)
  | list (l : List String)
deriving DecidableEq

/-- Input normalization of `extract_agent` (src/main2.py lines 172-173):
a string is wrapped into a one-element list, a list is passed through. -/
def normalizeUrls : UrlsInput → List String
  | UrlsInput.str s => [s]
  | UrlsInput.list l => l

/-- The remote request built by `search_agent` (src/main2.py lines
98-103): advanced search depth and raw content requested. -/
def search_agent_request (query : String) (max_results : Nat) : SearchRequest :=
  { query := query, max_results := max_results,
    search_depth := "advanced", include_raw_content := true }

/-- The remote request built by `extract_agent` (src/main2.py line 180):
`self.client.extract(urls=urls)` on the normalized list, with no
`include_raw_content` keyword. -/
def extract_agent_request (inp : UrlsInput) : ExtractRequest :=
  { urls := normalizeUrls inp, include_raw_content := none }

/-- The remote request built by `crawl_agent` (src/main2.py lines
235-238): extract on the single-element list `[url]` with
`include_raw_content=True`.  The `max_depth` parameter does not occur in
the request expression. -/
def crawl_agent_request (url : String) (max_depth : Nat) : ExtractRequest :=
  { urls := [url], include_raw_content := some true }

/-- The error message of the `ValueError` raised by
`TavilyAgents.__init__` (src/main2.py lines 59-62). -/
def initErrorMsg : String :=
  "Please provide TAVILY_API_KEY environment variable or pass it to the constructor"

/-- `TavilyAgents.__init__` (src/main2.py lines 54-66): the credential is
`api_key or os.environ.get(TAVILY_API_KEY)`; if the result is falsy the
constructor raises `ValueError`, otherwise construction succeeds holding
the credential. -/
def TavilyAgents_init (api_key : Option String) (env_TAVILY_API_KEY : Option String) :
    Except String String :=
  match pyStrOrOpt api_key env_TAVILY_API_KEY with
  | some s => if s = "" then Except.error initErrorMsg else Except.ok s
  | none => Except.error initErrorMsg

/-- Boolean success test for an `Except`-producing construction. -/
def exceptOk {ε α : Type} : Except ε α → Bool
  | Except.ok _ => true
  | Except.error _ => false

/-- C3: extract_agent applied to the single string u and to the
one-element list containing u builds the same normalized remote request,
whose url sequence is exactly the one-element sequence containing u. -/
theorem claim_C3_input_shape_invariance (u : String) :
    extract_agent_request (UrlsInput.str u) = extract_agent_request (UrlsInput.list [u])
    ∧ (extract_agent_request (UrlsInput.str u)).urls = [u] := by
  constructor <;> rfl

/-- C4: crawl_agent builds the identical remote request for every pair of
max_depth values, namely extract on the single-element list containing the
url with raw content requested; max_depth is accepted but has no effect on
the remote call. -/
theorem claim_C4_max_depth_no_effect (url : String) (d1 d2 : Nat) :
    crawl_agent_request url d1 = crawl_agent_request url d2
    ∧ crawl_agent_request url d1
        = { urls := [url], include_raw_content := some true } := by
  constructor <;> rfl

/-- C5: construction of the agents object succeeds whenever a non-empty
credential is supplied by the constructor argument, or by the environment
source when the constructor argument is absent or empty; when both sources
yield an empty or absent credential, construction fails with the
configuration error. -/
theorem claim_C5_credential_validation (arg envKey : Option String) :
    (∀ s, s ≠ "" → arg = some s → exceptOk (TavilyAgents_init arg envKey) = true)
    ∧ (∀ s, s ≠ "" → (arg = none ∨ arg = some "") → envKey = some s →
        exceptOk (TavilyAgents_init arg envKey) = true)
    ∧ ((arg = none ∨ arg = some "") → (envKey = none ∨ envKey = some "") →
        TavilyAgents_init arg envKey = Except.error initErrorMsg) := by
  refine ⟨?_, ?_, ?_⟩
  · intro s hs harg
    subst harg
    simp [TavilyAgents_init, pyStrOrOpt, exceptOk, hs]
  · intro s hs harg henv
    subst henv
    rcases harg with h | h <;> subst h <;>
      simp [TavilyAgents_init, pyStrOrOpt, exceptOk, hs]
  · intro harg henv
    rcases harg with h | h <;> subst h <;>
      rcases henv with h2 | h2 <;> subst h2 <;>
        simp [TavilyAgents_init, pyStrOrOpt]

/-- C5 witness: a concrete non-empty constructor credential succeeds, a
concrete non-empty environment credential succeeds when the argument is
absent, and the doubly-absent case fails with the configuration error. -/
theorem claim_C5_witness :
    exceptOk (TavilyAgents_init (some "tvly-key") none) = true
    ∧ exceptOk (TavilyAgents_init none (some "tvly-env")) = true
    ∧ TavilyAgents_init none none = Except.error initErrorMsg :=
  ⟨(claim_C5_credential_validation (some "tvly-key") none).1 "tvly-key"
      (by decide) rfl,
   (claim_C5_credential_validation none (some "tvly-env")).2.1 "tvly-env"
      (by decide) (Or.inl rfl) rfl,
   (claim_C5_credential_validation none none).2.2 (Or.inl rfl) (Or.inl rfl)⟩

/-- The rule of 70 equals signs printed between result headers. -/
def sepEq : String := String.mk (List.replicate 70 '=')

/-- The rule of 70 dashes printed around content blocks. -/
def sepDash : String := String.mk (List.replicate 70 '-')

/-- Content selection of `search_agent` (src/main2.py line 126):
`result.get('raw_content', '') or result.get('content', '')`. -/
def searchDisplayedContent (r : ResultRecord) : String :=
  pyStrOr (r.raw_content.getD "") (r.content.getD "")

/-- Content selection of `extract_agent` (src/main2.py line 191):
`result.get('raw_content', '')`, with no fallback to the summarized
`content` field. -/
def extractDisplayedContent (r : ResultRecord) : String :=
  r.raw_content.getD ""

/-- Formatting of one search result (src/main2.py lines 114-139).  Bracket
access to `title` and `url` can raise a `KeyError`: the second component
is the exception text, `none` when the record formats without error; the
first component is the lines printed before the exception (or all lines on
success). -/
def formatSearchResult (i : Nat) (r : ResultRecord) : List String × Option String :=
  let pre := [sepEq, "Result #" ++ toString i, sepEq]
  match r.title with
  | none => (pre, some (keyError "title"))
  | some title =>
    let titleLine := "📌 Title: " ++ title
    match r.url with
    | none => (pre ++ [titleLine], some (keyError "url"))
    | some url =>
      let full_content := searchDisplayedContent r
      (pre ++ [titleLine,
               "🔗 URL: " ++ url,
               "⭐ Relevance Score: " ++ r.score.getD "N/A",
               "📊 Content Length: " ++ toString full_content.length ++ " characters",
               "📄 Full Content:", sepDash, full_content, sepDash], none)

/-- Formatting of the whole search result list with 1-based enumeration;
stops at the first record that raises. -/
def formatSearchResults (i : Nat) : List ResultRecord → List String × Option String
  | [] => ([], none)
  | r :: rest =>
    match formatSearchResult i r with
    | (lines, some e) => (lines, some e)
    | (lines, none) =>
      match formatSearchResults (i + 1) rest with
      | (more, err) => (lines ++ more, err)

/-- `TavilyAgents.search_agent` (src/main2.py lines 68-148).  The remote
client call is the `resp` parameter; any exception from the call or from
formatting is caught by the `except` clause, which prints the failure line
and makes the method return `None` (modelled as `none`).  The method is a
total function: no exception propagates to the caller. -/
def search_agent (query : String) (resp : Except String Envelope) :
    Option Envelope × List String :=
  let header := "🔍 SEARCH AGENT: Searching for \x27" ++ query ++ "\x27..."
  match resp with
  | Except.error e => (none, [header, "❌ Error in search: " ++ e])
  | Except.ok response =>
    let results := response.results.getD []
    let countLine := "Found " ++ toString results.length ++ " results:"
    match formatSearchResults 1 results with
    | (lines, some e) =>
      (none, header :: countLine :: lines ++ ["❌ Error in search: " ++ e])
    | (lines, none) => (some response, header :: countLine :: lines)

/-- Formatting of one extraction result (src/main2.py lines 183-199).
Only `url` uses bracket access; `title` falls back to the placeholder and
the displayed content is the raw content with empty-string default. -/
def formatExtractResult (i : Nat) (r : ResultRecord) : List String × Option String :=
  let pre := [sepEq, "Extraction #" ++ toString i, sepEq]
  match r.url with
  | none => (pre, some (keyError "url"))
  | some url =>
    let raw_content := extractDisplayedContent r
    (pre ++ ["🔗 URL: " ++ url,
             "📌 Title: " ++ r.title.getD "N/A",
             "📊 Content Length: " ++ toString raw_content.length ++ " characters",
             "📄 Full Extracted Content:", sepDash, raw_content, sepDash], none)

/-- Formatting of the whole extraction result list with 1-based
enumeration; stops at the first record that raises. -/
def formatExtractResults (i : Nat) : List ResultRecord → List String × Option String
  | [] => ([], none)
  | r :: rest =>
    match formatExtractResult i r with
    | (lines, some e) => (lines, some e)
    | (lines, none) =>
      match formatExtractResults (i + 1) rest with
      | (more, err) => (lines ++ more, err)

/-- `TavilyAgents.extract_agent` (src/main2.py lines 150-206).  Normalizes
the input, calls the remote extract operation (the `resp` parameter), and
formats each record; any exception is caught, the failure line printed,
and `None` returned. -/
def extract_agent (inp : UrlsInput) (resp : Except String Envelope) :
    Option Envelope × List String :=
  let urls := normalizeUrls inp
  let header :=
    "📄 EXTRACT AGENT: Extracting content from " ++ toString urls.length ++ " URL(s)..."
  match resp with
  | Except.error e => (none, [header, "❌ Error in extraction: " ++ e])
  | Except.ok response =>
    match formatExtractResults 1 (response.results.getD []) with
    | (lines, some e) =>
      (none, header :: lines ++ ["❌ Error in extraction: " ++ e])
    | (lines, none) => (some response, header :: lines)

/-- `TavilyAgents.crawl_agent` (src/main2.py lines 208-268).  Calls the
remote extract operation on `[url]` with raw content requested (the `resp`
parameter); when the envelope has a non-empty result list, formats the
first record only; returns the envelope, or `None` after printing the
failure line when an exception is raised. -/
def crawl_agent (url : String) (max_depth : Nat) (resp : Except String Envelope) :
    Option Envelope × List String :=
  let header := "🕷️ CRAWL AGENT: Crawling \x27" ++ url ++ "\x27 (depth: "
    ++ toString max_depth ++ ")..."
  match resp with
  | Except.error e => (none, [header, "❌ Error in crawling: " ++ e])
  | Except.ok response =>
    match response.results.getD [] with
    | [] => (some response, [header])
    | result :: _ =>
      match result.url with
      | none => (none, [header, sepEq, "❌ Error in crawling: " ++ keyError "url"])
      | some u =>
        let full_content := extractDisplayedContent result
        (some response,
          [header, sepEq, "📍 Main Page: " ++ u, sepEq,
           "📌 Title: " ++ result.title.getD "N/A",
           "📊 Content extracted: " ++ toString full_content.length ++ " characters",
           "📄 Full Crawled Content:", sepDash, full_content, sepDash])

/-- C1: for every exception text raised by the underlying remote client
call, each of the three agent methods catches it, prints the human-readable
failure line, and returns None; being total functions into a plain pair,
the embedded methods let no exception escape to the caller. -/
theorem claim_C1_error_policy (e query url : String) (inp : UrlsInput) (d : Nat) :
    ((search_agent query (Except.error e)).1 = none
      ∧ ("❌ Error in search: " ++ e) ∈ (search_agent query (Except.error e)).2)
    ∧ ((extract_agent inp (Except.error e)).1 = none
      ∧ ("❌ Error in extraction: " ++ e) ∈ (extract_agent inp (Except.error e)).2)
    ∧ ((crawl_agent url d (Except.error e)).1 = none
      ∧ ("❌ Error in crawling: " ++ e) ∈ (crawl_agent url d (Except.error e)).2) := by
  refine ⟨⟨rfl, ?_⟩, ⟨rfl, ?_⟩, ⟨rfl, ?_⟩⟩ <;>
    simp [search_agent, extract_agent, crawl_agent]

/-- C2: the content displayed by search_agent for a record equals the raw
content when that is non-empty; equals the summarized content when the raw
content is absent or empty and the summarized content is non-empty; and is
the empty string when both are absent (the selection expression is total,
so no error occurs). -/
theorem claim_C2_content_selection (r : ResultRecord) :
    (∀ s, r.raw_content = some s → s ≠ "" → searchDisplayedContent r = s)
    ∧ ((r.raw_content = none ∨ r.raw_content = some "") →
        ∀ s, r.content = some s → s ≠ "" → searchDisplayedContent r = s)
    ∧ (r.raw_content = none → r.content = none → searchDisplayedContent r = "") := by
  refine ⟨?_, ?_, ?_⟩
  · intro s hraw hs
    simp [searchDisplayedContent, pyStrOr, hraw, hs]
  · intro hraw s hcont hs
    rcases hraw with h | h <;> simp [searchDisplayedContent, pyStrOr, h, hcont]
  · intro hraw hcont
    simp [searchDisplayedContent, pyStrOr, hraw, hcont]

/-- C2 witness: concrete records exercising all three cases, with both
fields present and non-empty in the first, raw absent in the second, and
both absent in the third. -/
theorem claim_C2_witness :
    searchDisplayedContent
      { title := some "t", url := some "u", score := none,
        raw_content := some "full text", content := some "summary" } = "full text"
    ∧ searchDisplayedContent
      { title := some "t", url := some "u", score := none,
        raw_content := none, content := some "summary" } = "summary"
    ∧ searchDisplayedContent
      { title := some "t", url := some "u", score := none,
        raw_content := none, content := none } = "" :=
  ⟨(claim_C2_content_selection _).1 "full text" rfl (by decide),
   (claim_C2_content_selection _).2.1 (Or.inl rfl) "summary" rfl (by decide),
   (claim_C2_content_selection _).2.2 rfl rfl⟩

/-- C9: extract_agent's remote call passes only the url list and no
raw-content flag, unlike crawl_agent which passes it as true; and
extract_agent's displayed content is the raw content field with
empty-string default, so a record lacking raw content is displayed with
length 0 and empty content regardless of its summarized content field. -/
theorem claim_C9_extract_no_raw_request (inp : UrlsInput) (url : String) (d : Nat)
    (r : ResultRecord) :
    (extract_agent_request inp).include_raw_content = none
    ∧ (crawl_agent_request url d).include_raw_content = some true
    ∧ (r.raw_content = none →
        extractDisplayedContent r = "" ∧ (extractDisplayedContent r).length = 0) := by
  refine ⟨rfl, rfl, ?_⟩
  intro h
  simp [extractDisplayedContent, h]

/-- C9 witness: a record whose raw content is absent but whose summarized
content is a non-empty string still displays empty content of length 0 in
extract_agent. -/
theorem claim_C9_witness :
    (extract_agent_request (UrlsInput.str "https://a")).include_raw_content = none
    ∧ (crawl_agent_request "https://a" 2).include_raw_content = some true
    ∧ (extractDisplayedContent
        { title := some "t", url := some "https://a", score := none,
          raw_content := none, content := some "summary" } = ""
      ∧ (extractDisplayedContent
          { title := some "t", url := some "https://a", score := none,
            raw_content := none, content := some "summary" }).length = 0) :=
  ⟨(claim_C9_extract_no_raw_request (UrlsInput.str "https://a") "https://a" 2
      { title := some "t", url := some "https://a", score := none,
        raw_content := none, content := some "summary" }).1,
   (claim_C9_extract_no_raw_request (UrlsInput.str "https://a") "https://a" 2
      { title := some "t", url := some "https://a", score := none,
        raw_content := none, content := some "summary" }).2.1,
   (claim_C9_extract_no_raw_request (UrlsInput.str "https://a") "https://a" 2
      { title := some "t", url := some "https://a", score := none,
        raw_content := none, content := some "summary" }).2.2 rfl⟩

/-- A concrete record lacking only the title key, used to exercise
search_agent on title-less results. -/
def recNoTitle : ResultRecord :=
  { title := none, url := some "https://a.example", score := some "0.5",
    raw_content := some "body", content := none }

/-- A concrete record lacking only the url key. -/
def recNoUrl : ResultRecord :=
  { title := some "T", url := none, score := some "0.5",
    raw_content := some "body", content := none }

/-- A concrete record with title and url present and score absent. -/
def recNoScore : ResultRecord :=
  { title := some "T", url := some "https://a.example", score := none,
    raw_content := some "body", content := none }

/-- C6 counterexample: on an envelope whose single record has a url but no
title, search_agent does not format and display the record; bracket access
to the title raises a KeyError, the except clause prints the failure line,
and the method returns None.  A missing title is therefore a hard error in
search_agent, contrary to the claim that only a missing url is. -/
theorem claim_C6_counterexample :
    (search_agent "q" (Except.ok { results := some [recNoTitle] })).1 = none
    ∧ ("❌ Error in search: " ++ keyError "title")
        ∈ (search_agent "q" (Except.ok { results := some [recNoTitle] })).2 := by
  constructor
  · rfl
  · simp [search_agent, formatSearchResults, formatSearchResult, recNoTitle]

/-- C6 amended: in search_agent the title and url keys are both required
for display, a record lacking either aborts formatting with a KeyError,
and a record with both present is formatted, with the score shown as the
placeholder N/A when absent. -/
theorem claim_C6_title_required (r : ResultRecord) (i : Nat) :
    (r.title = none → (formatSearchResult i r).2 = some (keyError "title"))
    ∧ (∀ t, r.title = some t → r.url = none →
        (formatSearchResult i r).2 = some (keyError "url"))
    ∧ (∀ t u, r.title = some t → r.url = some u →
        (formatSearchResult i r).2 = none
        ∧ ("⭐ Relevance Score: " ++ r.score.getD "N/A") ∈ (formatSearchResult i r).1) := by
  refine ⟨?_, ?_, ?_⟩
  · intro h
    simp [formatSearchResult, h]
  · intro t ht hu
    simp [formatSearchResult, ht, hu]
  · intro t u ht hu
    simp [formatSearchResult, ht, hu]

/-- C6 amended witness: concrete records lacking the title, lacking the
url, and lacking only the score, exercising each hypothesis. -/
theorem claim_C6_witness :
    (formatSearchResult 1 recNoTitle).2 = some (keyError "title")
    ∧ (formatSearchResult 1 recNoUrl).2 = some (keyError "url")
    ∧ ((formatSearchResult 1 recNoScore).2 = none
      ∧ ("⭐ Relevance Score: " ++ recNoScore.score.getD "N/A")
          ∈ (formatSearchResult 1 recNoScore).1) :=
  ⟨(claim_C6_title_required recNoTitle 1).1 rfl,
   (claim_C6_title_required recNoUrl 1).2.1 "T" rfl rfl,
   (claim_C6_title_required recNoScore 1).2.2 "T" "https://a.example" rfl rfl⟩

/-- Python `str.strip()`: drop whitespace characters from both ends.
Defined by structural recursion on the character list so that concrete
instances evaluate. -/
def pyStrip (s : String) : String :=
  String.mk (((s.data.dropWhile Char.isWhitespace).reverse.dropWhile
    Char.isWhitespace).reverse)

/-- Python `str.split(sep)` for a one-character separator: split into the
pieces between occurrences of the separator, keeping empty pieces (so
`"a,,b"` yields three pieces and `","` yields two empty ones). -/
def pySplitCharAux (sep : Char) : List Char → List Char → List String
  | [], acc => [String.mk acc.reverse]
  | c :: cs, acc =>
    if c = sep then String.mk acc.reverse :: pySplitCharAux sep cs []
    else pySplitCharAux sep cs (c :: acc)

/-- Python `s.split(',')`. -/
def pySplitComma (s : String) : List String := pySplitCharAux ',' s.data []

/-- Observable actions of one iteration of the menu loop of `main`
(src/main2.py lines 323-375). -/
inductive ShellEvent where
  | searchCall (query : String)
  | emptyQueryError
  | extractCall (urls : List String)
  | emptyUrlError
  | crawlCall (url : String)
  | invalidChoice
  | goodbye
deriving DecidableEq

/-- Result of one iteration of the menu loop: the loop breaks, or it
performs events and continues on the remaining input after consuming the
acknowledgment line, or a blocking read hits the end of input
(Python `input()` raising `EOFError`). -/
inductive StepResult where
  | exitLoop
  | continueLoop (events : List ShellEvent) (rest : List String)
  | eofError
deriving DecidableEq

/-- The `input("Press Enter to continue...")` read at the end of every
non-exit iteration (src/main2.py line 375): one line is consumed and
discarded before the menu is redrawn. -/
def ackThen (evs : List ShellEvent) : List String → StepResult
  | [] => StepResult.eofError
  | _ :: rest => StepResult.continueLoop evs rest

/-- A menu branch that prompts for one line of text, trims it, handles it,
and then blocks for the acknowledgment line (src/main2.py lines 337-362,
375). -/
def promptAction (handle : String → ShellEvent) : List String → StepResult
  | [] => StepResult.eofError
  | line :: rest => ackThen [handle (pyStrip line)] rest

/-- Dispatch on the trimmed menu choice (src/main2.py lines 336-375):
choices 1-3 prompt for text and validate it non-empty before calling the
agent, choice 4 breaks the loop, anything else reports an invalid choice;
every branch but 4 then consumes the acknowledgment line. -/
def handleChoice (choice : String) (rest : List String) : StepResult :=
  if choice = "1" then
    promptAction (fun q => if q = "" then ShellEvent.emptyQueryError
      else ShellEvent.searchCall q) rest
  else if choice = "2" then
    promptAction (fun s => if s = "" then ShellEvent.emptyUrlError
      else ShellEvent.extractCall ((pySplitComma s).map pyStrip)) rest
  else if choice = "3" then
    promptAction (fun u => if u = "" then ShellEvent.emptyUrlError
      else ShellEvent.crawlCall u) rest
  else if choice = "4" then StepResult.exitLoop
  else ackThen [ShellEvent.invalidChoice] rest

/-- One iteration of the menu loop: read the choice line, trim it,
dispatch (src/main2.py lines 334-375). -/
def menuStep : List String → StepResult
  | [] => StepResult.eofError
  | choiceLine :: rest => handleChoice (pyStrip choiceLine) rest

/-- Whether the loop exited normally via choice 4 or crashed on an
exhausted input stream. -/
inductive ShellOutcome where
  | exited
  | eofCrashed
deriving DecidableEq

/-- Fuel-indexed run of the menu loop.  Each continuing iteration consumes
at least one input line, so fuel equal to the input length never runs out
before the input does; the fuel-zero case coincides with the empty-input
EOF crash. -/
def runShellFuel : Nat → List String → List ShellEvent × ShellOutcome
  | 0, _ => ([], ShellOutcome.eofCrashed)
  | fuel + 1, inputs =>
    match menuStep inputs with
    | StepResult.exitLoop => ([ShellEvent.goodbye], ShellOutcome.exited)
    | StepResult.eofError => ([], ShellOutcome.eofCrashed)
    | StepResult.continueLoop evs rest =>
      let p := runShellFuel fuel rest
      (evs ++ p.1, p.2)

/-- The `while True` menu loop of `main` (src/main2.py lines 323-375) run
on a finite input stream. -/
def runShell (inputs : List String) : List ShellEvent × ShellOutcome :=
  runShellFuel inputs.length inputs

/-- The prompting branches never break the loop. -/
theorem promptAction_ne_exit (h : String → ShellEvent) (inputs : List String) :
    promptAction h inputs ≠ StepResult.exitLoop := by
  cases inputs with
  | nil => simp [promptAction]
  | cons a t => cases t <;> simp [promptAction, ackThen]

/-- The acknowledgment read never breaks the loop. -/
theorem ackThen_ne_exit (evs : List ShellEvent) (inputs : List String) :
    ackThen evs inputs ≠ StepResult.exitLoop := by
  cases inputs <;> simp [ackThen]

/-- Dispatch breaks the loop exactly on the choice 4. -/
theorem handleChoice_exit_iff (c : String) (rest : List String) :
    handleChoice c rest = StepResult.exitLoop ↔ c = "4" := by
  unfold handleChoice
  split_ifs with h1 h2 h3 h4
  · simp [promptAction_ne_exit, h1]
  · simp [promptAction_ne_exit, h2]
  · simp [promptAction_ne_exit, h3]
  · simp [h4]
  · simp [ackThen_ne_exit, h4]

/-- A continuing prompting branch consumed exactly the action line and the
acknowledgment line. -/
theorem promptAction_cont (h : String → ShellEvent) (inputs : List String)
    (evs : List ShellEvent) (rest : List String)
    (heq : promptAction h inputs = StepResult.continueLoop evs rest) :
    ∃ a b, inputs = a :: b :: rest ∧ evs = [h (pyStrip a)] := by
  cases inputs with
  | nil => simp [promptAction] at heq
  | cons a t =>
    cases t with
    | nil => simp [promptAction, ackThen] at heq
    | cons b t2 =>
      simp [promptAction, ackThen] at heq
      exact ⟨a, b, by simp [heq.2], by simp [heq.1]⟩

/-- A continuing acknowledgment read consumed exactly one line. -/
theorem ackThen_cont (evs0 : List ShellEvent) (inputs : List String)
    (evs : List ShellEvent) (rest : List String)
    (heq : ackThen evs0 inputs = StepResult.continueLoop evs rest) :
    ∃ a, inputs = a :: rest ∧ evs = evs0 := by
  cases inputs with
  | nil => simp [ackThen] at heq
  | cons a t =>
    simp [ackThen] at heq
    exact ⟨a, by simp [heq.2], by simp [heq.1]⟩

/-- A continuing iteration leaves a strict suffix of the lines after the
choice line: the lines not yet consumed end the original input. -/
theorem handleChoice_cont_suffix (c : String) (inputs : List String)
    (evs : List ShellEvent) (rest : List String)
    (heq : handleChoice c inputs = StepResult.continueLoop evs rest) :
    ∃ consumed ack, inputs = consumed ++ (ack :: rest) := by
  unfold handleChoice at heq
  split_ifs at heq
  · obtain ⟨a, b, hin, -⟩ := promptAction_cont _ _ _ _ heq
    exact ⟨[a], b, by simp [hin]⟩
  · obtain ⟨a, b, hin, -⟩ := promptAction_cont _ _ _ _ heq
    exact ⟨[a], b, by simp [hin]⟩
  · obtain ⟨a, b, hin, -⟩ := promptAction_cont _ _ _ _ heq
    exact ⟨[a], b, by simp [hin]⟩
  · obtain ⟨a, hin, -⟩ := ackThen_cont _ _ _ _ heq
    exact ⟨[], a, by simp [hin]⟩

/-- Every line still unconsumed after a continuing iteration was part of
the input. -/
theorem menuStep_cont_mem (inputs : List String) (evs : List ShellEvent)
    (rest : List String) (heq : menuStep inputs = StepResult.continueLoop evs rest) :
    ∀ l, l ∈ rest → l ∈ inputs := by
  cases inputs with
  | nil => simp [menuStep] at heq
  | cons c t =>
    simp only [menuStep] at heq
    obtain ⟨consumed, ack, hin⟩ := handleChoice_cont_suffix _ _ _ _ heq
    intro l hl
    subst hin
    simp [hl]

/-- A run of the loop that reaches the exit state read some line stripping
to 4. -/
theorem runShellFuel_exited (fuel : Nat) :
    ∀ inputs : List String, (runShellFuel fuel inputs).2 = ShellOutcome.exited →
      ∃ l, l ∈ inputs ∧ pyStrip l = "4" := by
  induction fuel with
  | zero => intro inputs h; simp [runShellFuel] at h
  | succ n ih =>
    intro inputs h
    rw [runShellFuel] at h
    cases hstep : menuStep inputs with
    | exitLoop =>
      cases inputs with
      | nil => simp [menuStep] at hstep
      | cons c t => exact ⟨c, by simp, (handleChoice_exit_iff (pyStrip c) t).mp hstep⟩
    | continueLoop evs rest =>
      rw [hstep] at h
      simp only at h
      obtain ⟨l, hl, hl4⟩ := ih rest h
      exact ⟨l, menuStep_cont_mem inputs evs rest hstep l hl, hl4⟩
    | eofError =>
      rw [hstep] at h
      simp at h

/-- C8: the loop reaches the terminal state only by reading a line that
trims to 4; one iteration breaks the loop exactly when the choice line
trims to 4; and every continuing iteration on a non-exit choice consumes
its action lines and then one acknowledgment line before the menu is shown
again on the remaining input. -/
theorem claim_C8_exit_only_on_4 (inputs : List String) :
    ((runShell inputs).2 = ShellOutcome.exited → ∃ l, l ∈ inputs ∧ pyStrip l = "4")
    ∧ (∀ c rest, menuStep (c :: rest) = StepResult.exitLoop ↔ pyStrip c = "4")
    ∧ (∀ c rest evs rest2, pyStrip c ≠ "4" →
        menuStep (c :: rest) = StepResult.continueLoop evs rest2 →
        ∃ consumed ack, rest = consumed ++ (ack :: rest2)) := by
  refine ⟨?_, ?_, ?_⟩
  · exact runShellFuel_exited inputs.length inputs
  · intro c rest
    exact handleChoice_exit_iff (pyStrip c) rest
  · intro c rest evs rest2 hne heq
    exact handleChoice_cont_suffix (pyStrip c) rest evs rest2 heq

/-- C8 witness: on the concrete stream with an invalid choice, an
acknowledgment, and an exit, the loop exits and the stream contains a line
trimming to 4; a padded choice line trimming to 4 breaks the loop; and a
continuing extract iteration consumed its url line and one acknowledgment
line. -/
theorem claim_C8_witness :
    (∃ l, l ∈ ["9", "", " 4 "] ∧ pyStrip l = "4")
    ∧ (menuStep [" 4 ", "x"] = StepResult.exitLoop)
    ∧ (∃ consumed ack, ["https://u", ""] = consumed ++ (ack :: ([] : List String))) :=
  ⟨(claim_C8_exit_only_on_4 ["9", "", " 4 "]).1 (by decide),
   ((claim_C8_exit_only_on_4 []).2.1 " 4 " ["x"]).mpr (by decide),
   (claim_C8_exit_only_on_4 []).2.2 "2" ["https://u", ""]
     [ShellEvent.extractCall ["https://u"]] [] (by decide) (by decide)⟩

/-- C7: on the input stream with choice 2, the comma-separated url line,
an acknowledgment line, and choice 4, the shell calls the extract agent
with exactly the two trimmed urls and then exits the loop on the 4; the
resulting remote extract request carries exactly those two urls. -/
theorem claim_C7_extract_scenario :
    runShell ["2", "https://x.com, https://y.com", "", "4"]
      = ([ShellEvent.extractCall ["https://x.com", "https://y.com"], ShellEvent.goodbye],
         ShellOutcome.exited)
    ∧ (extract_agent_request (UrlsInput.list ["https://x.com", "https://y.com"])).urls
        = ["https://x.com", "https://y.com"] := by
  constructor <;> decide

/-- C10: in the extract branch of the shell, any line that is non-empty
after stripping is split on commas with each piece stripped and none
filtered out, so pieces that are empty after stripping are passed to
extract_agent as empty strings; concretely the line of a lone comma yields
two empty urls and the line a,,b yields an empty middle url, and the
resulting url list is forwarded unchanged into the remote extract
request. -/
theorem claim_C10_empty_urls_not_filtered (line ack : String) (rest : List String)
    (h : pyStrip line ≠ "") :
    menuStep ("2" :: line :: ack :: rest)
      = StepResult.continueLoop
          [ShellEvent.extractCall ((pySplitComma (pyStrip line)).map pyStrip)] rest
    ∧ menuStep ["2", ",", "", "4"]
        = StepResult.continueLoop [ShellEvent.extractCall ["", ""]] ["4"]
    ∧ menuStep ["2", "a,,b", ""]
        = StepResult.continueLoop [ShellEvent.extractCall ["a", "", "b"]] []
    ∧ (extract_agent_request (UrlsInput.list ["", ""])).urls = ["", ""] := by
  refine ⟨?_, by decide, by decide, rfl⟩
  have hstep : menuStep ("2" :: line :: ack :: rest)
      = StepResult.continueLoop
          [if pyStrip line = "" then ShellEvent.emptyUrlError
           else ShellEvent.extractCall ((pySplitComma (pyStrip line)).map pyStrip)]
          rest := rfl
  rw [hstep, if_neg h]

/-- C10 witness: the lone-comma line is non-empty after stripping and is
passed on as two empty url strings. -/
theorem claim_C10_witness :
    menuStep ("2" :: "," :: "" :: ["4"])
      = StepResult.continueLoop
          [ShellEvent.extractCall ((pySplitComma (pyStrip ",")).map pyStrip)] ["4"]
    ∧ menuStep ["2", ",", "", "4"]
        = StepResult.continueLoop [ShellEvent.extractCall ["", ""]] ["4"]
    ∧ menuStep ["2", "a,,b", ""]
        = StepResult.continueLoop [ShellEvent.extractCall ["a", "", "b"]] []
    ∧ (extract_agent_request (UrlsInput.list ["", ""])).urls = ["", ""] :=
  claim_C10_empty_urls_not_filtered "," "" ["4"] (by decide)
